import Mathlib

/-!
Shallow embedding of `src/app.js` (a pass-through Strava gateway).

The embedding models the token lifecycle of the source file:
the MySQL-backed token store holding the singleton `strava_auth` row
(`executeQuery`), the refresh exchange against the upstream OAuth
endpoint (`authenticateWithStrava`), the freshness-checking middleware
(`ensureAccessToken`), and the route handlers, each a direct forward to
a fixed upstream URL with a bearer header.

External effects (MySQL connectivity, the upstream's answer to the
refresh POST, the wall clock `Date.now()`) are parameters of an
environment record, so the source functions become pure state-passing
functions on the store state.
-/

namespace StravaApp

/-- `stravaApiBaseUrl` from app.js line 12. -/
def stravaApiBaseUrl : String := "https://www.strava.com/api/v3"

/-- `authBaseUrl` from app.js line 13. -/
def authBaseUrl : String := "https://www.strava.com/oauth"

/-- The `config.strava` fields consumed by `authenticateWithStrava`
(app.js lines 41-44): `clientId`, `clientSecret`, and the statically
configured `accessToken` that line 44 passes as the `refresh_token`
grant parameter. -/
structure StravaConfig where
  clientId : String
  clientSecret : String
  accessToken : String
deriving Repr, DecidableEq

/-- One row of the `strava_auth` table: the three columns the code
reads and writes (app.js lines 51, 66). `expires_at` is stored as a
number (its unit is whatever the upstream supplied, see `dateGetTime`). -/
structure TokenRecord where
  access_token : String
  refresh_token : String
  expires_at : Int
deriving Repr, DecidableEq

/-- The three fields `authenticateWithStrava` destructures from the
upstream response body (app.js line 47). -/
structure RefreshResponse where
  access_token : String
  refresh_token : String
  expires_at : Int
deriving Repr, DecidableEq

/-- The POST request `authenticateWithStrava` issues to the upstream
authorization endpoint (app.js lines 40-45): URL and the four body
fields. -/
structure RefreshRequest where
  url : String
  client_id : String
  client_secret : String
  grant_type : String
  refresh_token : String
deriving Repr, DecidableEq

/-- Failure of the upstream refresh exchange: the axios rejection in
`authenticateWithStrava` (network error or non-2xx status). -/
inductive UpstreamError where
  | rejected
  | networkError
deriving Repr, DecidableEq

/-- Errors that can reach the catch block of `ensureAccessToken`
(app.js line 77), tagged by provenance:
`storeUnavailable` is a rejection from `executeQuery` (connection or
query error, app.js lines 19-28);
`typeErrorUndefined` is the TypeError thrown by destructuring
`results[0]` when the SELECT returned no rows (app.js line 66);
`authenticationFailed e` is the rethrown axios rejection of the
refresh POST (app.js lines 56-58). -/
inductive AppError where
  | storeUnavailable
  | typeErrorUndefined
  | authenticationFailed (e : UpstreamError)
deriving Repr, DecidableEq

/-- The environment of one `ensureAccessToken` invocation: whether the
SELECT and the UPDATE queries succeed, what the upstream answers to
the refresh POST, and `Date.now()` in milliseconds at the freshness
check. -/
structure Env where
  readOk : Bool
  writeOk : Bool
  refreshResult : Except UpstreamError RefreshResponse
  now : Int
deriving Repr

/-- The mutable state threaded through a call: the singleton
`strava_auth` row (none when the table is empty) and the list of
refresh POSTs issued so far to `{authBaseUrl}/token` (most recent
first); the list records the upstream authorization calls so theorems
can count them. -/
structure AuthState where
  store : Option TokenRecord
  refreshRequests : List RefreshRequest
deriving Repr, DecidableEq

/-- `new Date(n).getTime()` for a numeric `n` (app.js line 69): the
JavaScript Date constructor takes a number as milliseconds since
epoch, so the value passes through unchanged. -/
def dateGetTime (n : Int) : Int := n

/-- The staleness check of app.js line 69:
`Date.now() > new Date(expires_at).getTime() - 60000`. -/
def isStale (now expires_at : Int) : Bool :=
  decide (now > dateGetTime expires_at - 60000)

/-- The refresh POST built at app.js lines 40-45. Line 44 passes
`config.strava.accessToken` as the `refresh_token` body field. -/
def buildRefreshRequest (config : StravaConfig) : RefreshRequest :=
  ⟨authBaseUrl ++ "/token", config.clientId, config.clientSecret,
    "refresh_token", config.accessToken⟩

/-- `executeQuery('SELECT * FROM strava_auth WHERE id = 1')`
(app.js line 65): rejects with the driver error when the pool or the
query fails, otherwise resolves with the (possibly empty) row list. -/
def selectStravaAuth (readOk : Bool) (store : Option TokenRecord) :
    Except AppError (List TokenRecord) :=
  if readOk then .ok store.toList else .error .storeUnavailable

/-- `executeQuery('UPDATE strava_auth SET ... WHERE id = 1', [...])`
(app.js lines 50-53): rejects on connectivity/query failure; on
success the single UPDATE statement replaces the three columns of the
row with id 1 (a no-op when no such row exists). -/
def updateStravaAuth (writeOk : Bool) (resp : RefreshResponse)
    (store : Option TokenRecord) : Except AppError (Option TokenRecord) :=
  if writeOk then
    .ok (store.map fun _ => ⟨resp.access_token, resp.refresh_token, resp.expires_at⟩)
  else .error .storeUnavailable

/-- `authenticateWithStrava` (app.js lines 38-60): POST the refresh
request to `{authBaseUrl}/token`; on upstream success destructure the
triple, run the UPDATE, and return `access_token`; any rejection
(upstream or UPDATE) is rethrown unchanged by the catch block. -/
def authenticateWithStrava (config : StravaConfig) (env : Env)
    (s : AuthState) : Except AppError String × AuthState :=
  let s1 : AuthState := ⟨s.store, buildRefreshRequest config :: s.refreshRequests⟩
  match env.refreshResult with
  | .error e => (.error (.authenticationFailed e), s1)
  | .ok resp =>
    match updateStravaAuth env.writeOk resp s1.store with
    | .error e => (.error e, s1)
    | .ok newStore => (.ok resp.access_token, ⟨newStore, s1.refreshRequests⟩)

/-- `ensureAccessToken` (app.js lines 63-80), up to its catch block:
SELECT the singleton row, destructure `results[0]` (a TypeError when
the table is empty), check staleness (line 69); stale means refresh
via `authenticateWithStrava`, fresh means return the stored
`access_token` with no further call. The returned value is what the
middleware assigns to `req.accessToken`; an error is what its catch
block receives. -/
def ensureAccessToken (config : StravaConfig) (env : Env)
    (s : AuthState) : Except AppError String × AuthState :=
  match selectStravaAuth env.readOk s.store with
  | .error e => (.error e, s)
  | .ok [] => (.error .typeErrorUndefined, s)
  | .ok (r :: _) =>
    if isStale env.now r.expires_at then
      authenticateWithStrava config env s
    else (.ok r.access_token, s)

/-! HTTP route layer (app.js lines 83-198) -/

/-- Opaque upstream response payload, passed through by `res.json`. -/
abbrev UpstreamData := String

/-- A response body sent to the HTTP client: either the generic error
object `res.status(500).json({ error: 'Internal Server Error' })` or
the upstream data forwarded by `res.json(response.data)`. -/
inductive ResponseBody where
  | errorBody (msg : String)
  | jsonData (d : UpstreamData)
deriving Repr, DecidableEq

/-- The HTTP response a route sends to the client. -/
structure HttpResponse where
  status : Nat
  body : ResponseBody
deriving Repr, DecidableEq

/-- A request forwarded to the Strava API: method, URL, the JSON body
fields built from the client request (empty list when no body is
sent), and the Authorization header. -/
structure UpstreamRequest where
  method : String
  url : String
  bodyFields : List (String × Option String)
  authHeader : String
deriving Repr, DecidableEq

/-- JavaScript object destructuring `const { k } = req.body`: look the
key up in the client body, `none` when absent (undefined). -/
def jsGet (body : List (String × String)) (k : String) : Option String :=
  (body.find? fun p => p.1 == k).map Prod.snd

/-- GET /athlete forward (app.js lines 85-89). -/
def athleteRequest (tok : String) : UpstreamRequest :=
  ⟨"GET", stravaApiBaseUrl ++ "/athlete", [], "Bearer " ++ tok⟩

/-- POST /activities forward (app.js lines 102-117): the four fields
destructured from `req.body` are sent on as the upstream body. -/
def postActivitiesRequest (reqBody : List (String × String)) (tok : String) :
    UpstreamRequest :=
  ⟨"POST", stravaApiBaseUrl ++ "/activities",
    [("user_id", jsGet reqBody "user_id"),
     ("access_token", jsGet reqBody "access_token"),
     ("refresh_token", jsGet reqBody "refresh_token"),
     ("expires_at", jsGet reqBody "expires_at")],
    "Bearer " ++ tok⟩

/-- GET /activities/:id forward (app.js lines 129-133). -/
def getActivityRequest (id : String) (tok : String) : UpstreamRequest :=
  ⟨"GET", stravaApiBaseUrl ++ "/activities/" ++ id, [], "Bearer " ++ tok⟩

/-- GET /activities/:id/comments forward (app.js lines 145-149). -/
def activityCommentsRequest (id : String) (tok : String) : UpstreamRequest :=
  ⟨"GET", stravaApiBaseUrl ++ "/activities/" ++ id ++ "/comments", [],
    "Bearer " ++ tok⟩

/-- GET /athlete/activities forward (app.js lines 161-165). -/
def athleteActivitiesRequest (tok : String) : UpstreamRequest :=
  ⟨"GET", stravaApiBaseUrl ++ "/athlete/activities", [], "Bearer " ++ tok⟩

/-- PUT /activities/:id forward (app.js lines 178-191): only `name`
and `type` are destructured from `req.body` and sent upstream. -/
def putActivityRequest (id : String) (reqBody : List (String × String))
    (tok : String) : UpstreamRequest :=
  ⟨"PUT", stravaApiBaseUrl ++ "/activities/" ++ id,
    [("name", jsGet reqBody "name"), ("type", jsGet reqBody "type")],
    "Bearer " ++ tok⟩

/-- The common shape of every route (app.js lines 83-198): run the
`ensureAccessToken` middleware; its catch block answers 500 with the
generic body and the handler never runs. Otherwise build the forward
request from `req.accessToken`, send it upstream, and answer
`res.json(response.data)` on success or the handler's own 500 on
upstream failure. Returns the response together with the store state
after the middleware. -/
def handleRoute (config : StravaConfig) (env : Env) (s : AuthState)
    (mkReq : String → UpstreamRequest)
    (upstream : UpstreamRequest → Except UpstreamError UpstreamData) :
    HttpResponse × AuthState :=
  match ensureAccessToken config env s with
  | (.error _, s1) => (⟨500, .errorBody "Internal Server Error"⟩, s1)
  | (.ok tok, s1) =>
    match upstream (mkReq tok) with
    | .error _ => (⟨500, .errorBody "Internal Server Error"⟩, s1)
    | .ok d => (⟨200, .jsonData d⟩, s1)

/-! Two concurrent callers (app.js has no mutual exclusion)

`ensureAccessToken` awaits the SELECT, then (on the stale path) awaits
the refresh POST and the UPDATE; between awaits another request may
run. Each caller is modelled by an atomic read step and an atomic
refresh-and-write step over the shared store; a schedule decides the
interleaving. Merging refresh and write into one atomic step only
removes interleavings, so every trace of this model corresponds to a
real interleaving of the source. -/

instance {ε α : Type} [DecidableEq ε] [DecidableEq α] :
    DecidableEq (Except ε α) := fun a b =>
  match a, b with
  | .error x, .error y =>
    if h : x = y then .isTrue (by rw [h]) else
      .isFalse (fun hc => h (by injection hc))
  | .error _, .ok _ => .isFalse (fun hc => Except.noConfusion hc)
  | .ok _, .error _ => .isFalse (fun hc => Except.noConfusion hc)
  | .ok x, .ok y =>
    if h : x = y then .isTrue (by rw [h]) else
      .isFalse (fun hc => h (by injection hc))

/-- Where one in-flight `ensureAccessToken` call stands: before its
SELECT, after it (holding the row it read), or finished with its
result. -/
inductive CallerPhase where
  | ready
  | readDone (r : TokenRecord)
  | finished (result : Except AppError String)
deriving Repr, DecidableEq

/-- Shared store plus the phase of two concurrent callers. -/
structure ConcState where
  store : Option TokenRecord
  refreshRequests : List RefreshRequest
  c1 : CallerPhase
  c2 : CallerPhase
deriving Repr, DecidableEq

/-- One atomic step of a single caller (assuming the SELECT and UPDATE
queries succeed): `ready` performs the SELECT and the destructuring;
`readDone` performs the line-69 staleness check on the row it read,
then either returns the stored token or does the refresh POST followed
by the UPDATE. -/
def stepPhase (config : StravaConfig) (env : Env)
    (store : Option TokenRecord) (reqs : List RefreshRequest)
    (p : CallerPhase) :
    Option TokenRecord × List RefreshRequest × CallerPhase :=
  match p with
  | .ready =>
    match store with
    | none => (store, reqs, .finished (.error .typeErrorUndefined))
    | some r => (store, reqs, .readDone r)
  | .readDone r =>
    if isStale env.now r.expires_at then
      let reqs1 := buildRefreshRequest config :: reqs
      match env.refreshResult with
      | .error e => (store, reqs1, .finished (.error (.authenticationFailed e)))
      | .ok resp =>
        (store.map fun _ => ⟨resp.access_token, resp.refresh_token, resp.expires_at⟩,
          reqs1, .finished (.ok resp.access_token))
    else (store, reqs, .finished (.ok r.access_token))
  | .finished res => (store, reqs, .finished res)

/-- Run one step of caller 1 (`true`) or caller 2 (`false`). -/
def stepConc (config : StravaConfig) (env : Env) (which : Bool)
    (s : ConcState) : ConcState :=
  if which then
    let out := stepPhase config env s.store s.refreshRequests s.c1
    ⟨out.1, out.2.1, out.2.2, s.c2⟩
  else
    let out := stepPhase config env s.store s.refreshRequests s.c2
    ⟨out.1, out.2.1, s.c1, out.2.2⟩

/-- Run a schedule (list of caller choices) from a starting state. -/
def runSchedule (config : StravaConfig) (env : Env) (sched : List Bool)
    (s : ConcState) : ConcState :=
  sched.foldl (fun acc which => stepConc config env which acc) s

/-! Helper lemmas shared by several claim proofs. -/

/-- On a fresh record (app.js line 69 check false) the middleware
returns the stored token and leaves the state untouched. -/
theorem ensureAccessToken_fresh (config : StravaConfig) (env : Env)
    (s : AuthState) (r : TokenRecord) (hstore : s.store = some r)
    (hread : env.readOk = true)
    (hfresh : env.now ≤ r.expires_at - 60000) :
    ensureAccessToken config env s = (.ok r.access_token, s) := by
  have hns : isStale env.now r.expires_at = false := by
    simp only [isStale, dateGetTime, decide_eq_false_iff_not, not_lt]
    omega
  simp [ensureAccessToken, selectStravaAuth, hread, hstore, hns]

/-- On a stale record with a successful refresh and a successful
UPDATE, the middleware returns the new access token and replaces the
stored row with the upstream triple, having issued one refresh POST. -/
theorem ensureAccessToken_stale_ok (config : StravaConfig) (env : Env)
    (s : AuthState) (r : TokenRecord) (resp : RefreshResponse)
    (hstore : s.store = some r) (hread : env.readOk = true)
    (hwrite : env.writeOk = true)
    (hstale : isStale env.now r.expires_at = true)
    (hok : env.refreshResult = .ok resp) :
    ensureAccessToken config env s
      = (.ok resp.access_token,
          ⟨some ⟨resp.access_token, resp.refresh_token, resp.expires_at⟩,
            buildRefreshRequest config :: s.refreshRequests⟩) := by
  simp [ensureAccessToken, selectStravaAuth, hread, hstore, hstale,
    authenticateWithStrava, updateStravaAuth, hwrite, hok]

/-! Claims. -/

/-- Claim C1: for every stored record and call time with
`now <= expires_at - 60000` (the value line 69 compares in
milliseconds), `ensureAccessToken` returns the stored access token and
leaves the state unchanged — no refresh POST to the authorization
endpoint and no store write. -/
theorem C1_fresh_token_returned_without_refresh (config : StravaConfig)
    (env : Env) (s : AuthState) (r : TokenRecord)
    (hstore : s.store = some r) (hread : env.readOk = true)
    (hfresh : env.now ≤ r.expires_at - 60000) :
    ensureAccessToken config env s = (.ok r.access_token, s) :=
  ensureAccessToken_fresh config env s r hstore hread hfresh

/-- Witness for C1 at a concrete fresh record. -/
theorem C1_witness :
    ensureAccessToken ⟨"cid", "sec", "CT"⟩
        ⟨true, true, .error .rejected, 1700000000000⟩
        ⟨some ⟨"A1", "R1", 1700000120000⟩, []⟩
      = (.ok "A1", ⟨some ⟨"A1", "R1", 1700000120000⟩, []⟩) :=
  C1_fresh_token_returned_without_refresh ⟨"cid", "sec", "CT"⟩
    ⟨true, true, .error .rejected, 1700000000000⟩
    ⟨some ⟨"A1", "R1", 1700000120000⟩, []⟩ ⟨"A1", "R1", 1700000120000⟩
    rfl rfl (by decide)

/-- Claim C2 (code bug): on the stale path the refresh POST to
`{authBaseUrl}/token` carries `config.strava.accessToken` as its
`refresh_token` body field (app.js line 44), not the `refresh_token`
column of the row just read; here the record holds refresh token
`"R1"` but the issued request carries `"CONFIG_ACCESS"`. -/
theorem C2_refresh_post_carries_config_value_not_stored_token :
    (ensureAccessToken ⟨"cid", "sec", "CONFIG_ACCESS"⟩
        ⟨true, true, .ok ⟨"A2", "R2", 1700003600⟩, 1700000000000⟩
        ⟨some ⟨"A1", "R1", 1699999990⟩, []⟩).2.refreshRequests
      = [⟨"https://www.strava.com/oauth/token", "cid", "sec",
          "refresh_token", "CONFIG_ACCESS"⟩]
    ∧ ("CONFIG_ACCESS" : String) ≠ "R1" := by
  constructor
  · rfl
  · decide

/-- Claim C3 (code bug): with no mutual exclusion around
read-check-refresh-write, the schedule in which both callers run their
SELECT before either refreshes makes each of the two callers observe
the stale row and issue its own refresh POST: two upstream refresh
calls, not one. -/
theorem C3_two_concurrent_callers_issue_two_refresh_calls :
    (runSchedule ⟨"cid", "sec", "CT"⟩
        ⟨true, true, .ok ⟨"A2", "R2", 1700003600⟩, 1700000000000⟩
        [true, false, true, false]
        ⟨some ⟨"A1", "R1", 1699999990⟩, [], .ready, .ready⟩).refreshRequests.length
        = 2
    ∧ (runSchedule ⟨"cid", "sec", "CT"⟩
        ⟨true, true, .ok ⟨"A2", "R2", 1700003600⟩, 1700000000000⟩
        [true, false, true, false]
        ⟨some ⟨"A1", "R1", 1699999990⟩, [], .ready, .ready⟩).c1
        = .finished (.ok "A2")
    ∧ (runSchedule ⟨"cid", "sec", "CT"⟩
        ⟨true, true, .ok ⟨"A2", "R2", 1700003600⟩, 1700000000000⟩
        [true, false, true, false]
        ⟨some ⟨"A1", "R1", 1699999990⟩, [], .ready, .ready⟩).c2
        = .finished (.ok "A2") := by
  refine ⟨rfl, rfl, rfl⟩

/-- Claim C4: when the record is stale and the upstream refresh
exchange fails, `ensureAccessToken` fails with the propagated refresh
error and the stored row is untouched (the UPDATE is never reached),
so a later request sees the same record and can retry. -/
theorem C4_refresh_failure_leaves_store_unchanged (config : StravaConfig)
    (env : Env) (s : AuthState) (r : TokenRecord) (e : UpstreamError)
    (hstore : s.store = some r) (hread : env.readOk = true)
    (hstale : isStale env.now r.expires_at = true)
    (hfail : env.refreshResult = .error e) :
    (ensureAccessToken config env s).1 = .error (.authenticationFailed e)
    ∧ (ensureAccessToken config env s).2.store = s.store := by
  simp [ensureAccessToken, selectStravaAuth, hread, hstore, hstale,
    authenticateWithStrava, hfail]

/-- Witness for C4 at a concrete stale record and a rejected refresh. -/
theorem C4_witness :
    (ensureAccessToken ⟨"cid", "sec", "CT"⟩
        ⟨true, true, .error .rejected, 1700000000000⟩
        ⟨some ⟨"A1", "R1", 1699999990⟩, []⟩).1
      = .error (.authenticationFailed .rejected)
    ∧ (ensureAccessToken ⟨"cid", "sec", "CT"⟩
        ⟨true, true, .error .rejected, 1700000000000⟩
        ⟨some ⟨"A1", "R1", 1699999990⟩, []⟩).2.store
      = some ⟨"A1", "R1", 1699999990⟩ :=
  C4_refresh_failure_leaves_store_unchanged ⟨"cid", "sec", "CT"⟩
    ⟨true, true, .error .rejected, 1700000000000⟩
    ⟨some ⟨"A1", "R1", 1699999990⟩, []⟩ ⟨"A1", "R1", 1699999990⟩ .rejected
    rfl rfl (by decide) rfl

/-- Counterexample for C5: the upstream supplies `expires_at` in epoch
seconds (spec scenario: an expired record, refresh returns
`{A2, R2, now+3600}`); the first call stores that triple and returns
`"A2"`, but the very next call one second later — well before the real
expiry, 1700000001 s < 1700003600 s — finds the line-69 check stale
again (1700000001000 > 1700003600 - 60000), issues a second refresh
POST, and returns the second response `"A3"`, not `"A2"`. -/
theorem C5_counterexample_next_call_refreshes_again :
    (ensureAccessToken ⟨"cid", "sec", "CT"⟩
        ⟨true, true, .ok ⟨"A2", "R2", 1700003600⟩, 1700000000000⟩
        ⟨some ⟨"A1", "R1", 1699999990⟩, []⟩).1 = .ok "A2"
    ∧ (ensureAccessToken ⟨"cid", "sec", "CT"⟩
        ⟨true, true, .ok ⟨"A2", "R2", 1700003600⟩, 1700000000000⟩
        ⟨some ⟨"A1", "R1", 1699999990⟩, []⟩).2.store
      = some ⟨"A2", "R2", 1700003600⟩
    ∧ (ensureAccessToken ⟨"cid", "sec", "CT"⟩
        ⟨true, true, .ok ⟨"A3", "R3", 1700007200⟩, 1700000001000⟩
        (ensureAccessToken ⟨"cid", "sec", "CT"⟩
          ⟨true, true, .ok ⟨"A2", "R2", 1700003600⟩, 1700000000000⟩
          ⟨some ⟨"A1", "R1", 1699999990⟩, []⟩).2).2.refreshRequests.length = 2
    ∧ (ensureAccessToken ⟨"cid", "sec", "CT"⟩
        ⟨true, true, .ok ⟨"A3", "R3", 1700007200⟩, 1700000001000⟩
        (ensureAccessToken ⟨"cid", "sec", "CT"⟩
          ⟨true, true, .ok ⟨"A2", "R2", 1700003600⟩, 1700000000000⟩
          ⟨some ⟨"A1", "R1", 1699999990⟩, []⟩).2).1 = .ok "A3" := by
  refine ⟨rfl, rfl, rfl, rfl⟩

/-- Claim C5 as amended: when the record is stale, the refresh
succeeds, and the UPDATE succeeds, the stored row becomes exactly the
three fields of the upstream response and the returned token is the
new access token; a next call whose time satisfies the line-69
freshness check on the stored value taken as milliseconds
(`now2 <= expires_at - 60000`) returns that token with no further
refresh and no state change. (For the epoch-seconds values the
upstream actually supplies, no present-day time satisfies that check,
so the next call refreshes again — see the counterexample.) -/
theorem C5_refresh_success_updates_store_exactly (config : StravaConfig)
    (env env2 : Env) (s : AuthState) (r : TokenRecord)
    (resp : RefreshResponse) (hstore : s.store = some r)
    (hread : env.readOk = true) (hwrite : env.writeOk = true)
    (hstale : isStale env.now r.expires_at = true)
    (hok : env.refreshResult = .ok resp) (hread2 : env2.readOk = true)
    (hfresh2 : env2.now ≤ resp.expires_at - 60000) :
    (ensureAccessToken config env s).1 = .ok resp.access_token
    ∧ (ensureAccessToken config env s).2.store
      = some ⟨resp.access_token, resp.refresh_token, resp.expires_at⟩
    ∧ ensureAccessToken config env2 (ensureAccessToken config env s).2
      = (.ok resp.access_token, (ensureAccessToken config env s).2) := by
  have h1 := ensureAccessToken_stale_ok config env s r resp hstore hread
    hwrite hstale hok
  refine ⟨by rw [h1], by rw [h1], ?_⟩
  exact ensureAccessToken_fresh config env2 (ensureAccessToken config env s).2
    ⟨resp.access_token, resp.refresh_token, resp.expires_at⟩
    (by rw [h1]) hread2 hfresh2

/-- Witness for C5 as amended, with a millisecond-valued response
expiry so the second call is judged fresh. -/
theorem C5_witness :
    (ensureAccessToken ⟨"cid", "sec", "CT"⟩
        ⟨true, true, .ok ⟨"A2", "R2", 1700003600000⟩, 1700000000000⟩
        ⟨some ⟨"A1", "R1", 1699999990⟩, []⟩).1 = .ok "A2"
    ∧ (ensureAccessToken ⟨"cid", "sec", "CT"⟩
        ⟨true, true, .ok ⟨"A2", "R2", 1700003600000⟩, 1700000000000⟩
        ⟨some ⟨"A1", "R1", 1699999990⟩, []⟩).2.store
      = some ⟨"A2", "R2", 1700003600000⟩
    ∧ ensureAccessToken ⟨"cid", "sec", "CT"⟩
        ⟨true, true, .ok ⟨"A9", "R9", 0⟩, 1700000001000⟩
        (ensureAccessToken ⟨"cid", "sec", "CT"⟩
          ⟨true, true, .ok ⟨"A2", "R2", 1700003600000⟩, 1700000000000⟩
          ⟨some ⟨"A1", "R1", 1699999990⟩, []⟩).2
      = (.ok "A2",
          (ensureAccessToken ⟨"cid", "sec", "CT"⟩
            ⟨true, true, .ok ⟨"A2", "R2", 1700003600000⟩, 1700000000000⟩
            ⟨some ⟨"A1", "R1", 1699999990⟩, []⟩).2) :=
  C5_refresh_success_updates_store_exactly ⟨"cid", "sec", "CT"⟩
    ⟨true, true, .ok ⟨"A2", "R2", 1700003600000⟩, 1700000000000⟩
    ⟨true, true, .ok ⟨"A9", "R9", 0⟩, 1700000001000⟩
    ⟨some ⟨"A1", "R1", 1699999990⟩, []⟩ ⟨"A1", "R1", 1699999990⟩
    ⟨"A2", "R2", 1700003600000⟩ rfl rfl rfl (by decide) rfl rfl (by decide)

/-- Claim C6: the staleness decision is exactly
`Date.now() > new Date(expires_at).getTime() - 60000` with a numeric
`expires_at` read as milliseconds, while the refresh path stores the
upstream `expires_at` unchanged; hence every record whose `expires_at`
is an epoch-seconds value (at most 4102444800, year 2100) is judged
stale at every present-day millisecond clock (at least 10^12, i.e.
after September 2001), and the call takes the refresh path, issuing a
refresh POST. -/
theorem C6_epoch_seconds_record_always_takes_refresh_path
    (config : StravaConfig) (env : Env) (s : AuthState) (r : TokenRecord)
    (resp : RefreshResponse) (hstore : s.store = some r)
    (hread : env.readOk = true) (hsec : r.expires_at ≤ 4102444800)
    (hnow : 1000000000000 ≤ env.now) :
    isStale env.now r.expires_at = true
    ∧ (ensureAccessToken config env s).2.refreshRequests
      = buildRefreshRequest config :: s.refreshRequests
    ∧ (env.refreshResult = .ok resp → env.writeOk = true →
        (ensureAccessToken config env s).2.store
          = some ⟨resp.access_token, resp.refresh_token, resp.expires_at⟩) := by
  have hstale : isStale env.now r.expires_at = true := by
    simp only [isStale, dateGetTime, decide_eq_true_eq]
    omega
  refine ⟨hstale, ?_, ?_⟩
  · rcases hres : env.refreshResult with e | resp2
    · simp [ensureAccessToken, selectStravaAuth, hread, hstore, hstale,
        authenticateWithStrava, hres]
    · rcases hw : env.writeOk <;>
        simp [ensureAccessToken, selectStravaAuth, hread, hstore, hstale,
          authenticateWithStrava, updateStravaAuth, hres, hw]
  · intro hres hw
    rw [ensureAccessToken_stale_ok config env s r resp hstore hread hw
      hstale hres]

/-- Witness for C6 at a concrete epoch-seconds record. -/
theorem C6_witness :
    isStale 1700000000000 1700003600 = true
    ∧ (ensureAccessToken ⟨"cid", "sec", "CT"⟩
        ⟨true, true, .ok ⟨"A2", "R2", 1700003600⟩, 1700000000000⟩
        ⟨some ⟨"A1", "R1", 1700003600⟩, []⟩).2.refreshRequests
      = buildRefreshRequest ⟨"cid", "sec", "CT"⟩ :: []
    ∧ ((⟨true, true, .ok ⟨"A2", "R2", 1700003600⟩, 1700000000000⟩ : Env).refreshResult
          = .ok ⟨"A2", "R2", 1700003600⟩ →
        (⟨true, true, .ok ⟨"A2", "R2", 1700003600⟩, 1700000000000⟩ : Env).writeOk = true →
        (ensureAccessToken ⟨"cid", "sec", "CT"⟩
          ⟨true, true, .ok ⟨"A2", "R2", 1700003600⟩, 1700000000000⟩
          ⟨some ⟨"A1", "R1", 1700003600⟩, []⟩).2.store
          = some ⟨"A2", "R2", 1700003600⟩) :=
  C6_epoch_seconds_record_always_takes_refresh_path ⟨"cid", "sec", "CT"⟩
    ⟨true, true, .ok ⟨"A2", "R2", 1700003600⟩, 1700000000000⟩
    ⟨some ⟨"A1", "R1", 1700003600⟩, []⟩ ⟨"A1", "R1", 1700003600⟩
    ⟨"A2", "R2", 1700003600⟩ rfl rfl (by decide) (by decide)

/-- Claim C7: when the refresh succeeds but the UPDATE fails, the
rethrown store error propagates out of `ensureAccessToken` — the new
access token is not returned, the in-memory state keeps the old row,
and any route run in that environment answers the generic 500. -/
theorem C7_write_failure_blocks_token_swap (config : StravaConfig)
    (env : Env) (s : AuthState) (r : TokenRecord) (resp : RefreshResponse)
    (hstore : s.store = some r) (hread : env.readOk = true)
    (hstale : isStale env.now r.expires_at = true)
    (hok : env.refreshResult = .ok resp) (hwfail : env.writeOk = false) :
    (ensureAccessToken config env s).1 = .error .storeUnavailable
    ∧ (ensureAccessToken config env s).2.store = s.store
    ∧ ∀ (mkReq : String → UpstreamRequest)
        (upstream : UpstreamRequest → Except UpstreamError UpstreamData),
        (handleRoute config env s mkReq upstream).1
          = ⟨500, .errorBody "Internal Server Error"⟩ := by
  have h1 : ensureAccessToken config env s
      = (.error .storeUnavailable,
          ⟨s.store, buildRefreshRequest config :: s.refreshRequests⟩) := by
    simp [ensureAccessToken, selectStravaAuth, hread, hstore, hstale,
      authenticateWithStrava, updateStravaAuth, hok, hwfail]
  refine ⟨by rw [h1], by rw [h1], ?_⟩
  intro mkReq upstream
  simp [handleRoute, h1]

/-- Witness for C7: refresh succeeds, UPDATE fails, route answers 500. -/
theorem C7_witness :
    (ensureAccessToken ⟨"cid", "sec", "CT"⟩
        ⟨true, false, .ok ⟨"A2", "R2", 1700003600⟩, 1700000000000⟩
        ⟨some ⟨"A1", "R1", 1699999990⟩, []⟩).1 = .error .storeUnavailable
    ∧ (ensureAccessToken ⟨"cid", "sec", "CT"⟩
        ⟨true, false, .ok ⟨"A2", "R2", 1700003600⟩, 1700000000000⟩
        ⟨some ⟨"A1", "R1", 1699999990⟩, []⟩).2.store
      = some ⟨"A1", "R1", 1699999990⟩
    ∧ ∀ (mkReq : String → UpstreamRequest)
        (upstream : UpstreamRequest → Except UpstreamError UpstreamData),
        (handleRoute ⟨"cid", "sec", "CT"⟩
          ⟨true, false, .ok ⟨"A2", "R2", 1700003600⟩, 1700000000000⟩
          ⟨some ⟨"A1", "R1", 1699999990⟩, []⟩ mkReq upstream).1
          = ⟨500, .errorBody "Internal Server Error"⟩ :=
  C7_write_failure_blocks_token_swap ⟨"cid", "sec", "CT"⟩
    ⟨true, false, .ok ⟨"A2", "R2", 1700003600⟩, 1700000000000⟩
    ⟨some ⟨"A1", "R1", 1699999990⟩, []⟩ ⟨"A1", "R1", 1699999990⟩
    ⟨"A2", "R2", 1700003600⟩ rfl rfl (by decide) rfl rfl

/-- Counterexample for C8: with an empty `strava_auth` table the
SELECT does not fail at all — it resolves with the empty row list — so
the store read never produces a distinct NotFound error; the failure
that follows is the TypeError from destructuring `results[0]`, and the
route answers the same generic 500 as any other failure. -/
theorem C8_counterexample_empty_store_read_succeeds :
    selectStravaAuth true none = .ok []
    ∧ (ensureAccessToken ⟨"cid", "sec", "CT"⟩
        ⟨true, true, .error .rejected, 1700000000000⟩ ⟨none, []⟩).1
      = .error .typeErrorUndefined
    ∧ (handleRoute ⟨"cid", "sec", "CT"⟩
        ⟨true, true, .error .rejected, 1700000000000⟩ ⟨none, []⟩
        athleteRequest (fun _ => .error .rejected)).1
      = ⟨500, .errorBody "Internal Server Error"⟩ := by
  refine ⟨rfl, rfl, rfl⟩

/-- Claim C8 as amended: when no record exists the store read resolves
successfully with an empty result set; `ensureAccessToken` then fails
with the generic destructuring TypeError and every route answers the
same generic 500 as any other failure (request-scoped, not a distinct
fatal NotFound); when the storage cannot be reached the read rejects
with the driver connection error. -/
theorem C8_empty_store_is_generic_request_failure (config : StravaConfig)
    (env : Env) (s : AuthState) (hempty : s.store = none)
    (hread : env.readOk = true) :
    selectStravaAuth env.readOk s.store = .ok []
    ∧ (ensureAccessToken config env s).1 = .error .typeErrorUndefined
    ∧ (∀ (mkReq : String → UpstreamRequest)
        (upstream : UpstreamRequest → Except UpstreamError UpstreamData),
        (handleRoute config env s mkReq upstream).1
          = ⟨500, .errorBody "Internal Server Error"⟩)
    ∧ ∀ st : Option TokenRecord,
        selectStravaAuth false st = .error .storeUnavailable := by
  have h1 : ensureAccessToken config env s = (.error .typeErrorUndefined, s) := by
    simp [ensureAccessToken, selectStravaAuth, hread, hempty]
  refine ⟨?_, by rw [h1], ?_, fun st => rfl⟩
  · simp [selectStravaAuth, hread, hempty]
  · intro mkReq upstream
    simp [handleRoute, h1]

/-- Witness for C8 as amended, on the empty store. -/
theorem C8_witness :
    selectStravaAuth true none = .ok []
    ∧ (ensureAccessToken ⟨"cid", "sec", "CT"⟩
        ⟨true, true, .error .rejected, 1700000000000⟩ ⟨none, []⟩).1
      = .error .typeErrorUndefined
    ∧ (∀ (mkReq : String → UpstreamRequest)
        (upstream : UpstreamRequest → Except UpstreamError UpstreamData),
        (handleRoute ⟨"cid", "sec", "CT"⟩
          ⟨true, true, .error .rejected, 1700000000000⟩ ⟨none, []⟩
          mkReq upstream).1
          = ⟨500, .errorBody "Internal Server Error"⟩)
    ∧ ∀ st : Option TokenRecord,
        selectStravaAuth false st = .error .storeUnavailable :=
  C8_empty_store_is_generic_request_failure ⟨"cid", "sec", "CT"⟩
    ⟨true, true, .error .rejected, 1700000000000⟩ ⟨none, []⟩ rfl rfl

/-- Claim C9: for every route (any forward-request builder and any
upstream) and every failing execution — token read failure, refresh
failure, or upstream request failure — the response is exactly status
500 with the generic error body; the handler is a total function, so
no failure escapes the request. -/
theorem C9_every_failure_surfaces_generic_500 (config : StravaConfig)
    (env : Env) (s : AuthState) (mkReq : String → UpstreamRequest)
    (upstream : UpstreamRequest → Except UpstreamError UpstreamData)
    (hfail : ∀ tok d, ¬((ensureAccessToken config env s).1 = .ok tok
      ∧ upstream (mkReq tok) = .ok d)) :
    (handleRoute config env s mkReq upstream).1
      = ⟨500, .errorBody "Internal Server Error"⟩ := by
  rcases h : ensureAccessToken config env s with ⟨res, s1⟩
  rcases res with e | tok
  · simp [handleRoute, h]
  · rcases hu : upstream (mkReq tok) with e | d
    · simp [handleRoute, h, hu]
    · exact absurd ⟨by rw [h], hu⟩ (hfail tok d)

/-- Witness for C9: the store read fails, the route answers 500. -/
theorem C9_witness :
    (handleRoute ⟨"cid", "sec", "CT"⟩
        ⟨false, true, .error .rejected, 1700000000000⟩
        ⟨some ⟨"A1", "R1", 1699999990⟩, []⟩
        athleteRequest (fun _ => .error .networkError)).1
      = ⟨500, .errorBody "Internal Server Error"⟩ :=
  C9_every_failure_surfaces_generic_500 ⟨"cid", "sec", "CT"⟩
    ⟨false, true, .error .rejected, 1700000000000⟩
    ⟨some ⟨"A1", "R1", 1699999990⟩, []⟩
    athleteRequest (fun _ => .error .networkError)
    (fun _ _ h => Except.noConfusion h.1)

/-- Claim C10: every route forwards to its fixed upstream URL with an
`Authorization: Bearer` header carrying the token the middleware
produced, the upstream response data is passed to the client
unchanged, and PUT /activities/:id forwards exactly the `name` and
`type` fields of the client body to PUT {stravaApiBaseUrl}/activities/{id}. -/
theorem C10_routes_forward_bearer_and_pass_body_through (tok id : String)
    (reqBody : List (String × String)) (config : StravaConfig) (env : Env)
    (s s1 : AuthState) (mkReq : String → UpstreamRequest)
    (upstream : UpstreamRequest → Except UpstreamError UpstreamData)
    (d : UpstreamData)
    (htok : ensureAccessToken config env s = (.ok tok, s1))
    (hup : upstream (mkReq tok) = .ok d) :
    (athleteRequest tok).authHeader = "Bearer " ++ tok
    ∧ (postActivitiesRequest reqBody tok).authHeader = "Bearer " ++ tok
    ∧ (getActivityRequest id tok).authHeader = "Bearer " ++ tok
    ∧ (activityCommentsRequest id tok).authHeader = "Bearer " ++ tok
    ∧ (athleteActivitiesRequest tok).authHeader = "Bearer " ++ tok
    ∧ putActivityRequest id reqBody tok
      = ⟨"PUT", stravaApiBaseUrl ++ "/activities/" ++ id,
          [("name", jsGet reqBody "name"), ("type", jsGet reqBody "type")],
          "Bearer " ++ tok⟩
    ∧ handleRoute config env s mkReq upstream = (⟨200, .jsonData d⟩, s1) := by
  refine ⟨rfl, rfl, rfl, rfl, rfl, rfl, ?_⟩
  simp [handleRoute, htok, hup]

/-- Witness for C10: a fresh record supplies token "T1"; the PUT
forward of a body holding name, type and an extra field carries only
name and type; the upstream payload comes back unchanged. -/
theorem C10_witness :
    (athleteRequest "T1").authHeader = "Bearer " ++ "T1"
    ∧ (postActivitiesRequest [("name", "Morning Run"), ("type", "Run"),
        ("distance", "5")] "T1").authHeader = "Bearer " ++ "T1"
    ∧ (getActivityRequest "42" "T1").authHeader = "Bearer " ++ "T1"
    ∧ (activityCommentsRequest "42" "T1").authHeader = "Bearer " ++ "T1"
    ∧ (athleteActivitiesRequest "T1").authHeader = "Bearer " ++ "T1"
    ∧ putActivityRequest "42" [("name", "Morning Run"), ("type", "Run"),
        ("distance", "5")] "T1"
      = ⟨"PUT", stravaApiBaseUrl ++ "/activities/" ++ "42",
          [("name", jsGet [("name", "Morning Run"), ("type", "Run"),
            ("distance", "5")] "name"),
           ("type", jsGet [("name", "Morning Run"), ("type", "Run"),
            ("distance", "5")] "type")],
          "Bearer " ++ "T1"⟩
    ∧ handleRoute ⟨"cid", "sec", "CT"⟩
        ⟨true, true, .error .rejected, 1700000000000⟩
        ⟨some ⟨"T1", "R1", 1700000120000⟩, []⟩
        (putActivityRequest "42" [("name", "Morning Run"), ("type", "Run"),
          ("distance", "5")])
        (fun _ => .ok "UPSTREAM_DATA")
      = (⟨200, .jsonData "UPSTREAM_DATA"⟩,
          ⟨some ⟨"T1", "R1", 1700000120000⟩, []⟩) :=
  C10_routes_forward_bearer_and_pass_body_through "T1" "42"
    [("name", "Morning Run"), ("type", "Run"), ("distance", "5")]
    ⟨"cid", "sec", "CT"⟩ ⟨true, true, .error .rejected, 1700000000000⟩
    ⟨some ⟨"T1", "R1", 1700000120000⟩, []⟩
    ⟨some ⟨"T1", "R1", 1700000120000⟩, []⟩
    (putActivityRequest "42" [("name", "Morning Run"), ("type", "Run"),
      ("distance", "5")])
    (fun _ => .ok "UPSTREAM_DATA") "UPSTREAM_DATA" (by decide) rfl

end StravaApp
